import Mathlib

/-!
Verification of faizanbashir/k8s-go-sdk-examples against its specification.

The repository consists of four small Go utilities:
  * `src/k8s/pods/watcher/main.go` — a Pod watcher filtering for
    CrashLoopBackOff containers;
  * `src/k8s/deployments/main.go` — Deployment create/get/list/patch/
    scale/delete helpers;
  * `src/unnamed/part_000` — DeploymentConfig create/list/patch/scale/delete;
  * `src/unnamed/part_001` — MachineSet list-and-scale.

The relevant parts of each file are shallowly embedded below: pure data
flow becomes Lean functions over explicit lists; the watch channel is a
finite list of events consumed in order; process-exit behaviour is an
explicit outcome per failure site, transcribed from the source.
-/

set_option autoImplicit false

namespace K8s

/-! ### Data model of the watcher (src/k8s/pods/watcher/main.go)

Mirrors the corev1 types used by the watcher: `ContainerState` is a
struct of optional pointers (the Go code checks `c.State.Waiting != nil`),
`Pod` carries `ObjectMeta` and `PodStatus`, and a watch event carries an
event type and a `runtime.Object` which may or may not be a `*corev1.Pod`.
-/

/-- Embeds corev1.ContainerStateWaiting (only the field the watcher reads). -/
structure ContainerStateWaiting where
  reason : String
deriving DecidableEq, Repr

/-- Embeds corev1.ContainerStateTerminated (only the reason field). -/
structure ContainerStateTerminated where
  reason : String
deriving DecidableEq, Repr

/-- Embeds corev1.ContainerState: three optional pointers, at most one set
in practice, but the embedding keeps the struct shape of the source. The
running state carries no field the watcher reads, embedded as `Option Unit`. -/
structure ContainerState where
  waiting : Option ContainerStateWaiting
  running : Option Unit
  terminated : Option ContainerStateTerminated
deriving DecidableEq, Repr

/-- Embeds corev1.ContainerStatus (name and state fields). -/
structure ContainerStatus where
  name : String
  state : ContainerState
deriving DecidableEq, Repr

/-- Embeds metav1.ObjectMeta (name and namespace). `nspace` stands for the
Go field `Namespace`, which is a reserved word in Lean. -/
structure ObjectMeta where
  name : String
  nspace : String
deriving DecidableEq, Repr

/-- Embeds corev1.PodStatus: the coarse `Phase` string and the per-container
status list. -/
structure PodStatus where
  phase : String
  containerStatuses : List ContainerStatus
deriving DecidableEq, Repr

/-- Embeds corev1.Pod (the fields the watcher reads). -/
structure Pod where
  metadata : ObjectMeta
  status : PodStatus
deriving DecidableEq, Repr

/-- Embeds watch.EventType (Added/Modified/Deleted/Bookmark/Error). -/
inductive EventType
  | added
  | modified
  | deleted
  | bookmark
  | error
deriving DecidableEq, Repr

/-- Embeds the runtime.Object payload of a watch event: either a
`*corev1.Pod` (the type assertion `event.Object.(*corev1.Pod)` succeeds)
or some other object (the assertion fails). -/
inductive EventObject
  | pod (p : Pod)
  | other
deriving DecidableEq, Repr

/-- Embeds watch.Event: an event type and a payload object. -/
structure WatchEvent where
  type : EventType
  object : EventObject
deriving DecidableEq, Repr

/-! ### The filter loop (src/k8s/pods/watcher/main.go lines 49–59) -/

/-- Embeds the condition on line 55:
`c.State.Waiting != nil && c.State.Waiting.Reason == "CrashLoopBackOff"`. -/
def containerMatches (c : ContainerStatus) : Bool :=
  match c.state.waiting with
  | some w => w.reason == "CrashLoopBackOff"
  | none => false

/-- Embeds the Printf on line 56: the single output line for a matching
container, built from the pod's name, namespace and phase. -/
def crashLoopLine (p : Pod) : String :=
  "PodName: " ++ p.metadata.name ++ ", Namespace: " ++ p.metadata.nspace
    ++ ", Phase: " ++ p.status.phase

/-- Embeds the inner `for _, c := range pod.Status.ContainerStatuses` loop
(lines 54–58): one line per matching container, in container-list order. -/
def podLines (p : Pod) : List ContainerStatus → List String
  | [] => []
  | c :: rest =>
      if containerMatches c then crashLoopLine p :: podLines p rest
      else podLines p rest

/-- Embeds the body of the outer loop for one event (lines 50–58): the type
assertion `event.Object.(*corev1.Pod)`, the `continue` on failure, and the
inner container loop on success. -/
def processEvent (e : WatchEvent) : List String :=
  match e.object with
  | EventObject.pod p => podLines p p.status.containerStatuses
  | EventObject.other => []

/-- Embeds how the `for event := range watcher.ResultChan()` loop ends: the
channel is closed by the producer and the range loop exits normally. -/
inductive LoopExit
  | streamClosed
deriving DecidableEq, Repr

/-- Embeds the outer loop (lines 49–59) run over a finite stream that the
producer closes after the last event: the lines printed, in order, and the
way the loop exits. -/
def runWatchLoop : List WatchEvent → List String × LoopExit
  | [] => ([], LoopExit.streamClosed)
  | e :: rest =>
      let r := runWatchLoop rest
      (processEvent e ++ r.1, r.2)

/-- Embeds the predicate "the event has at least one container in
waiting/CrashLoopBackOff state" used by the spec's testable properties. -/
def eventHasMatch (e : WatchEvent) : Bool :=
  match e.object with
  | EventObject.pod p => p.status.containerStatuses.any containerMatches
  | EventObject.other => false

/-- Substring containment: `sub` occurs contiguously in `s`. -/
def containsStr (s sub : String) : Prop :=
  ∃ pre post : String, s = pre ++ sub ++ post

/-! ### Process termination behaviour at failure sites

Each way an error can surface in the four utilities is a failure site;
`failureOutcome` transcribes, from the source, how the process ends when
that site's error fires. Go semantics: `os.Exit(n)` ends the process with
status `n`; `log.Fatal` prints and calls `os.Exit(1)`; `panic` prints a
trace and ends the process with status 2; a plain `return` from `main`
ends the process with status 0.
-/

/-- Outcome of the process when a failure site fires. -/
inductive ProcessOutcome
  | exited (code : Nat)
  | panicked
  | returnedFromMain
deriving DecidableEq, Repr

/-- Exit status of the process for each outcome: `os.Exit(code)` gives
`code`, a Go panic gives status 2, and returning from `main` gives 0. -/
def exitStatus : ProcessOutcome → Nat
  | ProcessOutcome.exited n => n
  | ProcessOutcome.panicked => 2
  | ProcessOutcome.returnedFromMain => 0

/-- Every site in the four utilities where an error is handled.
Prefixes: `watcher` = src/k8s/pods/watcher/main.go, `dep` =
src/k8s/deployments/main.go, `dc` = src/unnamed/part_000 (DeploymentConfig
utility), `ms` = src/unnamed/part_001 (MachineSet utility). -/
inductive FailureSite
  | watcherHomeDir
  | watcherBuildConfig
  | watcherNewForConfig
  | watcherWatchEstablish
  | depHomeDir
  | depBuildConfig
  | depNewForConfig
  | depCreateErr
  | depGetErr
  | depListErr
  | depUpdatePatchErr
  | depScaleGetScaleErr
  | depScaleUpdateScaleErr
  | depDeleteErr
  | dcHomeDir
  | dcBuildConfig
  | dcNewForConfig
  | dcCreateErr
  | dcListErr
  | dcUpdateImageErr
  | dcScalePatchErr
  | dcDeleteErr
  | msHomeDir
  | msBuildConfig
  | msNewForConfig
  | msListNotFound
  | msListOtherErr
  | msPatchErr
deriving DecidableEq, Fintype, Repr

/-- Transcription of how each failure site ends the process.
Sites that `return err` to `main` are charged with `main`'s `log.Fatal(err)`
on that error (deployments/main.go lines 63–94, part_000 lines 60–84):
the process still exits with status 1. -/
def failureOutcome : FailureSite → ProcessOutcome
  | FailureSite.watcherHomeDir => ProcessOutcome.exited 1
  | FailureSite.watcherBuildConfig => ProcessOutcome.exited 1
  | FailureSite.watcherNewForConfig => ProcessOutcome.exited 1
  | FailureSite.watcherWatchEstablish => ProcessOutcome.returnedFromMain
  | FailureSite.depHomeDir => ProcessOutcome.exited 1
  | FailureSite.depBuildConfig => ProcessOutcome.exited 1
  | FailureSite.depNewForConfig => ProcessOutcome.exited 1
  | FailureSite.depCreateErr => ProcessOutcome.exited 1
  | FailureSite.depGetErr => ProcessOutcome.exited 1
  | FailureSite.depListErr => ProcessOutcome.exited 1
  | FailureSite.depUpdatePatchErr => ProcessOutcome.panicked
  | FailureSite.depScaleGetScaleErr => ProcessOutcome.exited 1
  | FailureSite.depScaleUpdateScaleErr => ProcessOutcome.exited 1
  | FailureSite.depDeleteErr => ProcessOutcome.exited 1
  | FailureSite.dcHomeDir => ProcessOutcome.exited 1
  | FailureSite.dcBuildConfig => ProcessOutcome.exited 1
  | FailureSite.dcNewForConfig => ProcessOutcome.exited 1
  | FailureSite.dcCreateErr => ProcessOutcome.exited 1
  | FailureSite.dcListErr => ProcessOutcome.exited 1
  | FailureSite.dcUpdateImageErr => ProcessOutcome.panicked
  | FailureSite.dcScalePatchErr => ProcessOutcome.panicked
  | FailureSite.dcDeleteErr => ProcessOutcome.exited 1
  | FailureSite.msHomeDir => ProcessOutcome.exited 1
  | FailureSite.msBuildConfig => ProcessOutcome.exited 1
  | FailureSite.msNewForConfig => ProcessOutcome.exited 1
  | FailureSite.msListNotFound => ProcessOutcome.exited 0
  | FailureSite.msListOtherErr => ProcessOutcome.panicked
  | FailureSite.msPatchErr => ProcessOutcome.panicked

/-- Transcription of whether each failure site prints a message before the
process ends: every site does, via `fmt.Printf`, `log.Fatal` (which prints),
or `panic` (which prints the value and a trace). -/
def printsErrorMessage : FailureSite → Bool
  | FailureSite.watcherHomeDir => true
  | FailureSite.watcherBuildConfig => true
  | FailureSite.watcherNewForConfig => true
  | FailureSite.watcherWatchEstablish => true
  | FailureSite.depHomeDir => true
  | FailureSite.depBuildConfig => true
  | FailureSite.depNewForConfig => true
  | FailureSite.depCreateErr => true
  | FailureSite.depGetErr => true
  | FailureSite.depListErr => true
  | FailureSite.depUpdatePatchErr => true
  | FailureSite.depScaleGetScaleErr => true
  | FailureSite.depScaleUpdateScaleErr => true
  | FailureSite.depDeleteErr => true
  | FailureSite.dcHomeDir => true
  | FailureSite.dcBuildConfig => true
  | FailureSite.dcNewForConfig => true
  | FailureSite.dcCreateErr => true
  | FailureSite.dcListErr => true
  | FailureSite.dcUpdateImageErr => true
  | FailureSite.dcScalePatchErr => true
  | FailureSite.dcDeleteErr => true
  | FailureSite.msHomeDir => true
  | FailureSite.msBuildConfig => true
  | FailureSite.msNewForConfig => true
  | FailureSite.msListNotFound => true
  | FailureSite.msListOtherErr => true
  | FailureSite.msPatchErr => true

/-! ### ScaleDeployment (src/k8s/deployments/main.go lines 183–205)

The function first issues `GetScale` (always), reads the current replica
count from the response, and then either returns without further requests
or issues one `UpdateScale`. The embedding takes the current replica
count `cur` as the result of the `GetScale` call and records which
follow-up requests are issued and what is printed, on the error-free path.
Replica counts are Go `int32` values; no arithmetic is performed on them,
so they are embedded as `Int`.
-/

/-- Requests ScaleDeployment can issue after the initial GetScale. -/
inductive ApiRequest
  | updateScale (name : String) (replicas : Int)
deriving DecidableEq, Repr

/-- Result of one ScaleDeployment call: the follow-up requests issued and
the lines printed. -/
structure ScaleCallResult where
  requests : List ApiRequest
  output : List String
deriving DecidableEq, Repr

/-- Embeds ScaleDeployment (lines 183–205): the condition on line 190 is
`sd.Spec.Replicas == replica || replica < 0`; the success print on line 204
uses the replica count echoed by the UpdateScale response, which equals the
requested value. -/
def ScaleDeployment (name : String) (cur replica : Int) : ScaleCallResult :=
  if cur = replica ∨ replica < 0 then
    { requests := [],
      output := ["Deployment " ++ name ++ " replicas " ++ toString replica
        ++ ", no changes applied"] }
  else if cur > replica then
    { requests := [ApiRequest.updateScale name replica],
      output := ["Scale down Deployment " ++ name ++ " from " ++ toString cur
          ++ " to " ++ toString replica ++ " replicas",
        "Successfully scaled deployment " ++ name ++ " to " ++ toString replica
          ++ " replicas"] }
  else
    { requests := [ApiRequest.updateScale name replica],
      output := ["Scale Up Deployment " ++ name ++ " from " ++ toString cur
          ++ " to " ++ toString replica ++ " replicas",
        "Successfully scaled deployment " ++ name ++ " to " ++ toString replica
          ++ " replicas"] }

/-- Effect of the issued requests on the deployment's replica count: an
`updateScale r` request sets it to `r`; no requests leave it unchanged. -/
def applyScaleRequests (cur : Int) : List ApiRequest → Int
  | [] => cur
  | ApiRequest.updateScale _ r :: rest => applyScaleRequests r rest

/-! ### ScaleDeploymentConfig (src/unnamed/part_000 lines 145–163)

The Go function takes `scale int` (a 64-bit signed integer), converts it
with `uint32(scale)` and puts the result in a JSON patch. A Go integer
conversion to `uint32` keeps the low 32 bits of the two's-complement
representation of the argument.
-/

/-- Two's-complement bit pattern of a Go `int` (64-bit) as a natural
number: the unique `n` with `0 ≤ n < 2^64` and `n ≡ x [ZMOD 2^64]`. -/
def int64TwosComplement (x : Int) : Nat := (x % (2 ^ 64 : Int)).toNat

/-- Go conversion `uint32(x)` for `x : int`: the low 32 bits of the
two's-complement representation. -/
def goUint32 (x : Int) : Nat := int64TwosComplement x % 2 ^ 32

/-- Embeds the Go struct `integerPatch` (op/path/value with a uint32
value). -/
structure IntegerPatch where
  op : String
  path : String
  value : Nat
deriving DecidableEq, Repr

/-- Embeds ScaleDeploymentConfig (lines 145–163) on the error-free path:
the patch payload sent to the API (always issued, no validation of
`scale`) and the lines printed. -/
def ScaleDeploymentConfig (name nspace : String) (scale : Int) :
    List IntegerPatch × List String :=
  let replicas := goUint32 scale
  ([{ op := "replace", path := "/spec/replicas", value := replicas }],
   ["Scaling DeploymentConfig `" ++ name ++ "` in namespace `" ++ nspace ++ "`",
    "Successfully scaled deploymentconfig to " ++ toString replicas ++ " replicas"])

/-! ### Control shape of the repository's operations

For the claim that the watcher's filter loop is the only element with
repeated or conditional logic, each operation's control flow is
transcribed from the source into two flags: whether its body contains a
loop, and whether it branches on anything other than an error check
(`if err != nil`, including the `errors.IsNotFound(err)` refinement).
-/

/-- Every operation in the repository. `machineSetListAndScale` is the
main of src/unnamed/part_001, which lists MachineSets and patches each. -/
inductive RepoOperation
  | watcherFilterLoop
  | createDeployment
  | getDeployment
  | listDeployment
  | updateDeployment
  | scaleDeployment
  | deleteDeployment
  | createDeploymentConfig
  | listDeploymentConfigs
  | updateDeploymentConfigImage
  | scaleDeploymentConfig
  | deleteDeploymentConfig
  | machineSetListAndScale
deriving DecidableEq, Fintype, Repr

/-- Transcription of which operations contain a loop: the watcher's
`for event := range` with its inner `for _, c := range` (watcher lines
49–58), and the MachineSet utility's `for _, ms := range
machineSetList.Items` that patches each item (part_001 lines 65–75). -/
def hasLoop : RepoOperation → Bool
  | RepoOperation.watcherFilterLoop => true
  | RepoOperation.createDeployment => false
  | RepoOperation.getDeployment => false
  | RepoOperation.listDeployment => false
  | RepoOperation.updateDeployment => false
  | RepoOperation.scaleDeployment => false
  | RepoOperation.deleteDeployment => false
  | RepoOperation.createDeploymentConfig => false
  | RepoOperation.listDeploymentConfigs => false
  | RepoOperation.updateDeploymentConfigImage => false
  | RepoOperation.scaleDeploymentConfig => false
  | RepoOperation.deleteDeploymentConfig => false
  | RepoOperation.machineSetListAndScale => true

/-- Transcription of which operations branch on something other than an
error check: the watcher's CrashLoopBackOff filter (watcher line 55) and
ScaleDeployment's three-way comparison of current and requested replicas
(deployments/main.go lines 190–197). -/
def hasBranchBeyondErrorCheck : RepoOperation → Bool
  | RepoOperation.watcherFilterLoop => true
  | RepoOperation.createDeployment => false
  | RepoOperation.getDeployment => false
  | RepoOperation.listDeployment => false
  | RepoOperation.updateDeployment => false
  | RepoOperation.scaleDeployment => true
  | RepoOperation.deleteDeployment => false
  | RepoOperation.createDeploymentConfig => false
  | RepoOperation.listDeploymentConfigs => false
  | RepoOperation.updateDeploymentConfigImage => false
  | RepoOperation.scaleDeploymentConfig => false
  | RepoOperation.deleteDeploymentConfig => false
  | RepoOperation.machineSetListAndScale => false

/-! ### Concrete example data used by witnesses -/

/-- Example pod from the spec's scenario: one container waiting in
CrashLoopBackOff. -/
def examplePod : Pod :=
  Pod.mk (ObjectMeta.mk "api-7f" "prod")
    (PodStatus.mk "Running"
      [ContainerStatus.mk "api"
        (ContainerState.mk (some (ContainerStateWaiting.mk "CrashLoopBackOff")) none none)])

/-- Example pod event with a single running container (no match). -/
def exampleRunningEvent : WatchEvent :=
  WatchEvent.mk EventType.modified
    (EventObject.pod
      (Pod.mk (ObjectMeta.mk "web-1" "prod")
        (PodStatus.mk "Running"
          [ContainerStatus.mk "web" (ContainerState.mk none (some ()) none)])))

/-- Example event whose payload is not a Pod. -/
def exampleOtherEvent : WatchEvent :=
  { type := EventType.bookmark, object := EventObject.other }

/-! ### Helper lemmas about the filter loop -/

theorem podLines_eq_filter_map (p : Pod) (cs : List ContainerStatus) :
    podLines p cs = (cs.filter containerMatches).map (fun _ => crashLoopLine p) := by
  induction cs with
  | nil => rfl
  | cons c rest ih =>
      by_cases h : containerMatches c
      · simp [podLines, List.filter, h, ih]
      · simp [podLines, List.filter, h, ih]

theorem podLines_length (p : Pod) (cs : List ContainerStatus) :
    (podLines p cs).length = (cs.filter containerMatches).length := by
  rw [podLines_eq_filter_map]; exact List.length_map _ _

theorem runWatchLoop_snd (evs : List WatchEvent) :
    (runWatchLoop evs).2 = LoopExit.streamClosed := by
  induction evs with
  | nil => rfl
  | cons e rest ih => simp [runWatchLoop, ih]

theorem runWatchLoop_append (xs ys : List WatchEvent) :
    (runWatchLoop (xs ++ ys)).1 = (runWatchLoop xs).1 ++ (runWatchLoop ys).1 := by
  induction xs with
  | nil => simp [runWatchLoop]
  | cons e rest ih => simp [runWatchLoop, ih]

theorem mem_podLines (p : Pod) (cs : List ContainerStatus) (l : String)
    (hl : l ∈ podLines p cs) : l = crashLoopLine p := by
  rw [podLines_eq_filter_map] at hl
  obtain ⟨c, _, rfl⟩ := List.mem_map.mp hl
  rfl

theorem crashLoopLine_contains (p : Pod) :
    containsStr (crashLoopLine p) p.metadata.name ∧
    containsStr (crashLoopLine p) p.metadata.nspace ∧
    containsStr (crashLoopLine p) p.status.phase := by
  refine ⟨⟨"PodName: ", ", Namespace: " ++ p.metadata.nspace ++ ", Phase: " ++ p.status.phase, ?_⟩,
    ⟨"PodName: " ++ p.metadata.name ++ ", Namespace: ", ", Phase: " ++ p.status.phase, ?_⟩,
    ⟨"PodName: " ++ p.metadata.name ++ ", Namespace: " ++ p.metadata.nspace ++ ", Phase: ", "", ?_⟩⟩
  · simp [crashLoopLine, String.append_assoc]
  · simp [crashLoopLine, String.append_assoc]
  · simp [crashLoopLine, String.append_assoc]

theorem runWatchLoop_fst (evs : List WatchEvent) :
    (runWatchLoop evs).1 = (evs.map processEvent).flatten := by
  induction evs with
  | nil => rfl
  | cons e rest ih => simp [runWatchLoop, ih]

theorem processEvent_eq_nil_of_no_match (e : WatchEvent)
    (h : eventHasMatch e = false) : processEvent e = [] := by
  cases e with
  | mk ty obj =>
      cases obj with
      | pod p =>
          have h' : ∀ c ∈ p.status.containerStatuses, ¬ containerMatches c :=
            List.any_eq_false.mp h
          show podLines p p.status.containerStatuses = []
          rw [podLines_eq_filter_map, List.filter_eq_nil_iff.mpr h']
          rfl
      | other => rfl

/-! ### Claim theorems -/

/-- C1: for every event whose payload is a PodSnapshot, the filter loop
emits exactly one output line per container status whose state is waiting
with reason exactly "CrashLoopBackOff", each line containing the pod's
name, namespace and phase; an event with no such container produces no
output line. -/
theorem C1_one_line_per_crashloop_container (ty : EventType) (p : Pod) :
    (processEvent (WatchEvent.mk ty (EventObject.pod p))).length
        = (p.status.containerStatuses.filter containerMatches).length
    ∧ (∀ l ∈ processEvent (WatchEvent.mk ty (EventObject.pod p)),
        containsStr l p.metadata.name ∧ containsStr l p.metadata.nspace
          ∧ containsStr l p.status.phase)
    ∧ ((∀ c ∈ p.status.containerStatuses, containerMatches c = false) →
        processEvent (WatchEvent.mk ty (EventObject.pod p)) = []) := by
  refine ⟨podLines_length p _, ?_, ?_⟩
  · intro l hl
    have h := mem_podLines p _ l hl
    subst h
    exact crashLoopLine_contains p
  · intro h
    show podLines p p.status.containerStatuses = []
    rw [podLines_eq_filter_map,
      List.filter_eq_nil_iff.mpr fun c hc => by simp [h c hc]]
    rfl

/-- C1 witness: the spec's scenario pod (name "api-7f", namespace "prod",
phase "Running", one container waiting in CrashLoopBackOff) produces
exactly one line, equal to the number of matching containers. -/
theorem C1_one_line_per_crashloop_container_witness :
    (processEvent (WatchEvent.mk EventType.modified (EventObject.pod examplePod))).length
      = (examplePod.status.containerStatuses.filter containerMatches).length ∧
    (processEvent (WatchEvent.mk EventType.modified (EventObject.pod examplePod))).length = 1 :=
  ⟨(C1_one_line_per_crashloop_container EventType.modified examplePod).1, by decide⟩

/-- C2: an event whose payload is not a PodSnapshot produces no output,
raises no error, and processing of the whole stream is identical to the
stream without that event, wherever it occurs. -/
theorem C2_non_pod_event_transparent (ty : EventType)
    (pre post : List WatchEvent) :
    runWatchLoop (pre ++ WatchEvent.mk ty EventObject.other :: post)
      = runWatchLoop (pre ++ post) := by
  have h1 : (runWatchLoop (pre ++ WatchEvent.mk ty EventObject.other :: post)).1
      = (runWatchLoop (pre ++ post)).1 := by
    rw [runWatchLoop_append, runWatchLoop_append]
    simp [runWatchLoop, processEvent]
  have h2 : (runWatchLoop (pre ++ WatchEvent.mk ty EventObject.other :: post)).2
      = (runWatchLoop (pre ++ post)).2 := by
    simp [runWatchLoop_snd]
  exact Prod.ext h1 h2

/-- C5: the filter is pure and stateless: after any prefix of prior
events, the additional output produced for an event is exactly
`processEvent` of that event, so the output for a given event depends only
on that event's content and never on the events that preceded it. -/
theorem C5_filter_stateless (pre : List WatchEvent) (e : WatchEvent) :
    (runWatchLoop (pre ++ [e])).1 = (runWatchLoop pre).1 ++ processEvent e := by
  rw [runWatchLoop_append]
  simp [runWatchLoop]

/-- C6: a finite stream closed by the producer after N events is processed
to the end and the loop exits normally (stream closed, not an error); if
no event matches the CrashLoopBackOff predicate, no output line is
produced. -/
theorem C6_finite_stream_normal_exit (evs : List WatchEvent) :
    (runWatchLoop evs).2 = LoopExit.streamClosed
    ∧ ((∀ e ∈ evs, eventHasMatch e = false) → (runWatchLoop evs).1 = []) := by
  refine ⟨runWatchLoop_snd evs, ?_⟩
  intro h
  induction evs with
  | nil => rfl
  | cons e rest ih =>
      have he : processEvent e = [] :=
        processEvent_eq_nil_of_no_match e (h e (List.mem_cons_self e rest))
      have hr := ih fun x hx => h x (List.mem_cons_of_mem e hx)
      simp [runWatchLoop, he, hr]

/-- C6 witness: a concrete two-event stream (a running pod and a non-pod
event) is processed to normal exit with no output. -/
theorem C6_finite_stream_normal_exit_witness :
    (runWatchLoop [exampleRunningEvent, exampleOtherEvent]).2 = LoopExit.streamClosed
    ∧ (runWatchLoop [exampleRunningEvent, exampleOtherEvent]).1 = [] :=
  ⟨(C6_finite_stream_normal_exit [exampleRunningEvent, exampleOtherEvent]).1,
   (C6_finite_stream_normal_exit [exampleRunningEvent, exampleOtherEvent]).2 (by decide)⟩

/-- C8: the loop processes events one at a time in stream order: the
output of any stream is the concatenation, in order, of the per-event
outputs, and within one event the matching lines follow the order of the
snapshot's container list (the filtered sublist, order preserved). -/
theorem C8_output_is_ordered_concatenation (evs : List WatchEvent) :
    (runWatchLoop evs).1 = (evs.map processEvent).flatten
    ∧ (∀ (ty : EventType) (p : Pod),
        processEvent (WatchEvent.mk ty (EventObject.pod p))
          = (p.status.containerStatuses.filter containerMatches).map
              (fun _ => crashLoopLine p)) :=
  ⟨runWatchLoop_fst evs, fun _ p => podLines_eq_filter_map p _⟩

/-- C3 counterexample: the claim that every setup or request failure exits
with a non-zero status fails at the watcher's watch-establishment failure,
which prints the error and returns from main, ending the process with
status 0. -/
theorem C3_nonzero_exit_counterexample :
    ¬ (∀ s : FailureSite, exitStatus (failureOutcome s) ≠ 0) := by
  intro h
  exact h FailureSite.watcherWatchEstablish (by decide)

/-- C3 amended: every failure site prints a message and terminates the
process immediately, and every site except the watcher's
watch-establishment failure (which returns from main, status 0) and the
MachineSet list not-found case (which exits with status 0) ends the
process with a non-zero status. -/
theorem C3_nonzero_exit_amended :
    ∀ s : FailureSite, s ≠ FailureSite.watcherWatchEstablish →
      s ≠ FailureSite.msListNotFound →
      exitStatus (failureOutcome s) ≠ 0 ∧ printsErrorMessage s = true := by
  decide

/-- C3 witness: a Deployment get failure prints and exits non-zero. -/
theorem C3_nonzero_exit_amended_witness :
    exitStatus (failureOutcome FailureSite.depGetErr) ≠ 0
    ∧ printsErrorMessage FailureSite.depGetErr = true :=
  C3_nonzero_exit_amended FailureSite.depGetErr (by decide) (by decide)

/-- C7: a not-found error when listing MachineSets prints a message and
exits the process cleanly with status 0, while a failure to get or list a
Deployment, or to list a DeploymentConfig, ends the process with a
non-zero status. -/
theorem C7_notfound_clean_exit_vs_fatal :
    exitStatus (failureOutcome FailureSite.msListNotFound) = 0
    ∧ printsErrorMessage FailureSite.msListNotFound = true
    ∧ exitStatus (failureOutcome FailureSite.depGetErr) ≠ 0
    ∧ exitStatus (failureOutcome FailureSite.depListErr) ≠ 0
    ∧ exitStatus (failureOutcome FailureSite.dcListErr) ≠ 0 := by
  decide

/-- C9: when the requested replica count equals the current one or is
negative, ScaleDeployment issues no scale-update request, prints the
"no changes applied" line, and the deployment's replica count is left
unchanged. -/
theorem C9_scale_noop_when_equal_or_negative (name : String)
    (cur replica : Int) (h : cur = replica ∨ replica < 0) :
    (ScaleDeployment name cur replica).requests = []
    ∧ (ScaleDeployment name cur replica).output
        = ["Deployment " ++ name ++ " replicas " ++ toString replica
            ++ ", no changes applied"]
    ∧ applyScaleRequests cur (ScaleDeployment name cur replica).requests = cur := by
  rw [ScaleDeployment, if_pos h]
  exact ⟨rfl, rfl, rfl⟩

/-- C9 witness: scaling deployment "web" from 3 replicas to 3 replicas
issues no request and leaves the count at 3. -/
theorem C9_scale_noop_when_equal_or_negative_witness :
    (ScaleDeployment "web" 3 3).requests = []
    ∧ (ScaleDeployment "web" 3 3).output
        = ["Deployment " ++ "web" ++ " replicas " ++ toString (3 : Int)
            ++ ", no changes applied"]
    ∧ applyScaleRequests 3 (ScaleDeployment "web" 3 3).requests = 3 :=
  C9_scale_noop_when_equal_or_negative "web" 3 3 (Or.inl rfl)

/-- C10: ScaleDeploymentConfig converts its signed scale argument with the
Go conversion `uint32(scale)` before building the JSON patch, so the
replica count sent equals the argument modulo 2^32; in particular the
patch is always issued, and a negative scale such as -1 is submitted as
the large positive count 4294967295. -/
theorem C10_scale_config_uint32_modulo :
    (∀ (name nspace : String) (scale : Int),
        (ScaleDeploymentConfig name nspace scale).1
          = [IntegerPatch.mk "replace" "/spec/replicas" (goUint32 scale)]
        ∧ ((goUint32 scale : Int) = scale % 2 ^ 32))
    ∧ (ScaleDeploymentConfig "web" "prod" (-1)).1
        = [IntegerPatch.mk "replace" "/spec/replicas" 4294967295] := by
  have key : ∀ scale : Int, (goUint32 scale : Int) = scale % 2 ^ 32 := by
    intro scale
    have h64 : (0 : Int) ≤ scale % 2 ^ 64 :=
      Int.emod_nonneg scale (by norm_num)
    calc (goUint32 scale : Int)
        = ((scale % 2 ^ 64).toNat % 2 ^ 32 : Nat) := rfl
      _ = ((scale % 2 ^ 64).toNat : Int) % (2 ^ 32 : Int) := by push_cast; ring
      _ = (scale % 2 ^ 64) % 2 ^ 32 := by rw [Int.toNat_of_nonneg h64]
      _ = scale % 2 ^ 32 := Int.emod_emod_of_dvd scale (by norm_num)
  refine ⟨fun name nspace scale => ⟨rfl, key scale⟩, ?_⟩
  rfl

/-- C4 counterexample: the claim that the filter loop is the only element
with repeated or conditional logic fails: the MachineSet utility's main
loops over the listed MachineSets patching each, and ScaleDeployment
branches on the comparison of current and requested replica counts. -/
theorem C4_only_loop_counterexample :
    ¬ (∀ op : RepoOperation, op ≠ RepoOperation.watcherFilterLoop →
        hasLoop op = false ∧ hasBranchBeyondErrorCheck op = false) := by
  intro h
  exact absurd (h RepoOperation.machineSetListAndScale (by decide)).1 (by decide)

/-- C4 amended: apart from the watcher's filter loop, ScaleDeployment's
replica-count branch and the MachineSet utility's per-item patch loop,
every operation in the repository is a single request/response call with
no loop and no branching beyond error checks. -/
theorem C4_only_loop_amended :
    ∀ op : RepoOperation, op ≠ RepoOperation.watcherFilterLoop →
      op ≠ RepoOperation.scaleDeployment →
      op ≠ RepoOperation.machineSetListAndScale →
      hasLoop op = false ∧ hasBranchBeyondErrorCheck op = false := by
  decide

/-- C4 witness: CreateDeployment has no loop and no non-error branch. -/
theorem C4_only_loop_amended_witness :
    hasLoop RepoOperation.createDeployment = false
    ∧ hasBranchBeyondErrorCheck RepoOperation.createDeployment = false :=
  C4_only_loop_amended RepoOperation.createDeployment (by decide) (by decide) (by decide)

end K8s
